import Mathlib

/-!
Verification of the render-job polling and submission core of the repository.

The embedded code:

* `poll_for_image_completion` (src/banner/app.py, lines 64-84): a loop of at
  most 20 status-fetch HTTP calls against the rendering provider.  Each
  iteration either raises a transport error (caught, the function returns
  `None` after showing "Polling failed: ..."), or parses a JSON body and reads
  `data["status"]` (an unguarded dict index: a missing key raises `KeyError`),
  returning `data["image_url_png"]` on `"completed"` (again unguarded),
  returning `None` on `"failed"` after an error message, and otherwise sleeping
  and continuing.  After the loop a warning is shown and `None` is returned.
  The sleep has no effect we model; the loop bound is the literal `range(20)`
  in the source and is kept as an explicit parameter `k` of `pollLoop` so the
  specification's `max_attempts` instances can be stated; the source function
  is `pollLoop` at bound 20.

* `generate_bannerbear_image` (src/banner/app.py, lines 52-62): builds the
  payload `{"template": template_id, "modifications": modifications}`, issues
  exactly one POST, returns the parsed body on success and `None` (after an
  error message) on a transport error.

* `handle_gemini_function_call` (src/banchat/chatbot_app.py, lines 84-99):
  scans the session's modification list for the first entry whose `"name"`
  equals the function call's `layer_name` and mutates that entry's `"text"`
  (if `new_text` is among the arguments) or else its `"image_url"` (if
  `new_image_url` is), breaking out of the loop; if no entry matches, the list
  is untouched.

* the null-dropping step of `handle_image_generation`
  (src/banchat/chatbot_app.py, lines 108-113): each modification dict is
  replaced by the sub-dict of its non-`None`-valued items before submission.

HTTP is modelled by oracles: a status-fetch oracle `Nat → FetchOutcome`
giving the outcome of the i-th GET, and a `post` oracle for the single
submission POST.
-/

/-- One parsed status-response body, restricted to the two JSON fields the
code reads.  `none` models an absent key (the Python dict would raise
`KeyError` on indexing). -/
structure StatusData where
  status : Option String
  image_url_png : Option String
deriving DecidableEq

/-- Outcome of one status-fetch call: a `requests` exception (from the GET or
from `raise_for_status`), or a parsed JSON body. -/
inductive FetchOutcome where
  | ok (data : StatusData)
  | transportError (e : String)
deriving DecidableEq

/-- How the Python function leaves: a normal `return` of a value
(`None` or an image URL), or an unhandled `KeyError` on the named key. -/
inductive PollOutcome where
  | ret (value : Option String)
  | keyError (key : String)
deriving DecidableEq

/-- Observable behaviour of one run of the polling function: how many
status-fetch calls were issued, how the function left, and the
`st.error` / `st.warning` texts it displayed. -/
structure PollTrace where
  calls : Nat
  result : PollOutcome
  messages : List String
deriving DecidableEq

/-- The `st.warning` text after the loop exhausts its attempts
(src/banner/app.py line 83). -/
def timeoutMsg : String := "Image generation is taking longer than expected."

/-- The `st.error` text when the provider reports `failed`
(src/banner/app.py line 77). -/
def failedMsg : String := "Image generation failed on Bannerbear\x27s side."

/-- The `st.error` text when a status-fetch call raises
(src/banner/app.py line 81). -/
def pollFailMsg (e : String) : String := "Polling failed: " ++ e

/-- The loop body of `poll_for_image_completion` (src/banner/app.py lines
69-84), with the attempt bound `k` explicit and `i` the number of calls
already made (the source enters with `k = 20`, `i = 0`).  `fetch i` is the
outcome of the (i+1)-th GET. -/
def pollLoop (fetch : Nat → FetchOutcome) : Nat → Nat → PollTrace
  | 0, i => ⟨i, .ret none, [timeoutMsg]⟩
  | k + 1, i =>
    match fetch i with
    | .transportError e => ⟨i + 1, .ret none, [pollFailMsg e]⟩
    | .ok d =>
      match d.status with
      | none => ⟨i + 1, .keyError "status", []⟩
      | some s =>
        if s = "completed" then
          match d.image_url_png with
          | some url => ⟨i + 1, .ret (some url), []⟩
          | none => ⟨i + 1, .keyError "image_url_png", []⟩
        else if s = "failed" then ⟨i + 1, .ret none, [failedMsg]⟩
        else pollLoop fetch k (i + 1)

/-- `poll_for_image_completion` (src/banner/app.py lines 64-84): the loop at
the source's literal bound `range(20)`. -/
def poll_for_image_completion (fetch : Nat → FetchOutcome) : PollTrace :=
  pollLoop fetch 20 0

/-- A status-fetch outcome on which the loop proceeds to the next attempt:
a parsed body whose `status` key is present and is neither `"completed"` nor
`"failed"`. -/
def FetchOutcome.isContinue : FetchOutcome → Bool
  | .ok d =>
    match d.status with
    | some s => decide (s ≠ "completed" ∧ s ≠ "failed")
    | none => false
  | .transportError _ => false

/-- The artifact locator carried by a response that reports `completed`
(and `none` for any other outcome, or when the locator key is absent). -/
def FetchOutcome.completedUrl : FetchOutcome → Option String
  | .ok d =>
    match d.status with
    | some s => if s = "completed" then d.image_url_png else none
    | none => none
  | .transportError _ => none

/-- A parsed body reporting status `"failed"`. -/
def FetchOutcome.isFailedStatus : FetchOutcome → Bool
  | .ok d => decide (d.status = some "failed")
  | .transportError _ => false

/-- A parsed body reporting a terminal status (`"completed"` or `"failed"`). -/
def FetchOutcome.isTerminalStatus : FetchOutcome → Bool
  | .ok d =>
    match d.status with
    | some s => decide (s = "completed" ∨ s = "failed")
    | none => false
  | .transportError _ => false

/-- The trace produced when the loop's current iteration does not continue:
the one-step outcome of the body at call index `i` on a non-continuing
fetch outcome. -/
def haltStep : FetchOutcome → Nat → PollTrace
  | .transportError e, i => ⟨i + 1, .ret none, [pollFailMsg e]⟩
  | .ok d, i =>
    match d.status with
    | none => ⟨i + 1, .keyError "status", []⟩
    | some s =>
      if s = "completed" then
        match d.image_url_png with
        | some url => ⟨i + 1, .ret (some url), []⟩
        | none => ⟨i + 1, .keyError "image_url_png", []⟩
      else ⟨i + 1, .ret none, [failedMsg]⟩

lemma pollLoop_continue (fetch : Nat → FetchOutcome) (k i : Nat)
    (h : (fetch i).isContinue = true) :
    pollLoop fetch (k + 1) i = pollLoop fetch k (i + 1) := by
  cases hf : fetch i with
  | transportError e =>
    rw [hf] at h
    simp [FetchOutcome.isContinue] at h
  | ok d =>
    rw [hf] at h
    cases hs : d.status with
    | none =>
      simp [FetchOutcome.isContinue, hs] at h
    | some s =>
      simp only [FetchOutcome.isContinue, hs, decide_eq_true_eq] at h
      simp only [pollLoop, hf, hs, if_neg h.1, if_neg h.2]

lemma pollLoop_halt (fetch : Nat → FetchOutcome) (k i : Nat)
    (h : (fetch i).isContinue = false) :
    pollLoop fetch (k + 1) i = haltStep (fetch i) i := by
  cases hf : fetch i with
  | transportError e => simp only [pollLoop, hf, haltStep]
  | ok d =>
    rw [hf] at h
    cases hs : d.status with
    | none => simp only [pollLoop, hf, hs, haltStep]
    | some s =>
      simp only [FetchOutcome.isContinue, hs, decide_eq_false_iff_not,
        not_and_or, not_not] at h
      by_cases hc : s = "completed"
      · simp only [pollLoop, hf, hs, haltStep, if_pos hc]
      · have hfd : s = "failed" := h.resolve_left hc
        simp only [pollLoop, hf, hs, haltStep, if_neg hc, if_pos hfd]

lemma pollLoop_timeout (fetch : Nat → FetchOutcome) :
    ∀ k i, (∀ j, j < k → (fetch (i + j)).isContinue = true) →
      pollLoop fetch k i = ⟨i + k, .ret none, [timeoutMsg]⟩ := by
  intro k
  induction k with
  | zero => intro i _; simp [pollLoop]
  | succ k ih =>
    intro i h
    have h0 : (fetch i).isContinue = true := by
      have := h 0 (Nat.succ_pos k)
      simpa using this
    rw [pollLoop_continue fetch k i h0, ih (i + 1) (fun j hj => by
      have := h (j + 1) (Nat.succ_lt_succ hj)
      have harith : i + (j + 1) = i + 1 + j := by omega
      rwa [harith] at this)]
    congr 1
    omega

lemma pollLoop_halts_at (fetch : Nat → FetchOutcome) :
    ∀ k i t, t < k →
      (∀ j, j < t → (fetch (i + j)).isContinue = true) →
      (fetch (i + t)).isContinue = false →
      pollLoop fetch k i = haltStep (fetch (i + t)) (i + t) := by
  intro k
  induction k with
  | zero => intro i t ht; omega
  | succ k ih =>
    intro i t ht hpre hstop
    cases t with
    | zero =>
      have h0 : (fetch i).isContinue = false := by simpa using hstop
      rw [pollLoop_halt fetch k i h0]
      simp
    | succ t =>
      have h0 : (fetch i).isContinue = true := by
        have := hpre 0 (Nat.succ_pos t)
        simpa using this
      rw [pollLoop_continue fetch k i h0]
      have harith : i + (t + 1) = i + 1 + t := by omega
      rw [harith] at hstop ⊢
      exact ih (i + 1) t (Nat.lt_of_succ_lt_succ ht)
        (fun j hj => by
          have := hpre (j + 1) (Nat.succ_lt_succ hj)
          have ha : i + (j + 1) = i + 1 + j := by omega
          rwa [ha] at this)
        hstop

lemma haltStep_result_ret_some (o : FetchOutcome) (i : Nat) (u : String) :
    (haltStep o i).result = .ret (some u) ↔ o.completedUrl = some u := by
  cases o with
  | transportError e => simp [haltStep, FetchOutcome.completedUrl]
  | ok d =>
    cases hs : d.status with
    | none => simp [haltStep, FetchOutcome.completedUrl, hs]
    | some s =>
      by_cases hc : s = "completed"
      · cases hu : d.image_url_png with
        | none => simp [haltStep, FetchOutcome.completedUrl, hs, hu, if_pos hc]
        | some url =>
          simp [haltStep, FetchOutcome.completedUrl, hs, hu, if_pos hc, eq_comm]
      · simp [haltStep, FetchOutcome.completedUrl, hs, if_neg hc]

lemma isContinue_completedUrl_none (o : FetchOutcome)
    (h : o.isContinue = true) : o.completedUrl = none := by
  cases o with
  | transportError e => simp [FetchOutcome.completedUrl]
  | ok d =>
    cases hs : d.status with
    | none => simp [FetchOutcome.completedUrl, hs]
    | some s =>
      simp only [FetchOutcome.isContinue, hs, decide_eq_true_eq] at h
      simp [FetchOutcome.completedUrl, hs, if_neg h.1]

lemma pollLoop_success_iff (fetch : Nat → FetchOutcome) (u : String) :
    ∀ k i, ((pollLoop fetch k i).result = .ret (some u) ↔
      ∃ t, t < k ∧ (∀ j, j < t → (fetch (i + j)).isContinue = true) ∧
        (fetch (i + t)).completedUrl = some u) := by
  intro k
  induction k with
  | zero =>
    intro i
    simp [pollLoop]
  | succ k ih =>
    intro i
    by_cases hc : (fetch i).isContinue = true
    · rw [pollLoop_continue fetch k i hc, ih (i + 1)]
      constructor
      · rintro ⟨t, ht, hpre, hcompl⟩
        refine ⟨t + 1, Nat.succ_lt_succ ht, ?_, ?_⟩
        · intro j hj
          cases j with
          | zero => simpa using hc
          | succ j =>
            have := hpre j (Nat.lt_of_succ_lt_succ hj)
            have ha : i + 1 + j = i + (j + 1) := by omega
            rwa [ha] at this
        · have ha : i + 1 + t = i + (t + 1) := by omega
          rwa [ha] at hcompl
      · rintro ⟨t, ht, hpre, hcompl⟩
        cases t with
        | zero =>
          exfalso
          have : (fetch (i + 0)).completedUrl = none := by
            simpa using isContinue_completedUrl_none _ hc
          rw [this] at hcompl
          exact Option.noConfusion hcompl
        | succ t =>
          refine ⟨t, Nat.lt_of_succ_lt_succ ht, ?_, ?_⟩
          · intro j hj
            have := hpre (j + 1) (Nat.succ_lt_succ hj)
            have ha : i + (j + 1) = i + 1 + j := by omega
            rwa [ha] at this
          · have ha : i + (t + 1) = i + 1 + t := by omega
            rwa [ha] at hcompl
    · have hc' : (fetch i).isContinue = false := by
        simpa using hc
      rw [pollLoop_halt fetch k i hc', haltStep_result_ret_some]
      constructor
      · intro h
        exact ⟨0, Nat.succ_pos k, by omega, by simpa using h⟩
      · rintro ⟨t, ht, hpre, hcompl⟩
        cases t with
        | zero => simpa using hcompl
        | succ t =>
          exfalso
          have := hpre 0 (Nat.succ_pos t)
          rw [Nat.add_zero] at this
          rw [this] at hc'
          exact Bool.noConfusion hc'

/-- One entry of the session's modification list
(`st.session_state.current_modifications`).  The entries are the raw
`available_modifications` layer dicts of the template
(src/banchat/chatbot_app.py lines 56-68), later mutated in place at the
`"text"` / `"image_url"` keys.  The keys the code reads and writes are
explicit fields; every other key of the dict is carried verbatim in `rest`.
`none` models a key that is absent or has JSON value `null` (the two are
interchangeable for every operation embedded here: both are dropped by the
null-filtering step and neither counts as a set value). -/
structure Modification where
  name : String
  text : Option String
  image_url : Option String
  rest : List (String × Option String)
deriving DecidableEq

/-- The key/value items of the modification dict, as read by `mod.items()`
(src/banchat/chatbot_app.py line 112). -/
def Modification.items (m : Modification) : List (String × Option String) :=
  ("name", some m.name) :: ("text", m.text) :: ("image_url", m.image_url) ::
    m.rest

/-- The null-dropping comprehension of `handle_image_generation`
(src/banchat/chatbot_app.py line 112):
`\x7bkey: value for key, value in mod.items() if value is not None\x7d`. -/
def cleanMod (m : Modification) : List (String × String) :=
  m.items.filterMap fun kv =>
    match kv.2 with
    | some v => some (kv.1, v)
    | none => none

/-- The `final_modifications` list built by the loop of
`handle_image_generation` (src/banchat/chatbot_app.py lines 109-113). -/
def finalModifications (mods : List Modification) : List (List (String × String)) :=
  mods.map cleanMod

/-- The arguments of the structured function call emitted by the language
model (`update_modifications`, declared in src/banchat/gemini_helpers.py):
`layer_name` as read by `args.get` (absent gives `none`), and the optional
`new_text` / `new_image_url` arguments, where `some v` models the key being
present in `function_call.args` with value `v`. -/
structure FunctionCall where
  layer_name : Option String
  new_text : Option String
  new_image_url : Option String
deriving DecidableEq

/-- The mutation applied to the matched modification dict by
`handle_gemini_function_call` (src/banchat/chatbot_app.py lines 90-93):
set `"text"` when `new_text` is among the arguments, otherwise set
`"image_url"` when `new_image_url` is, otherwise leave the dict unchanged. -/
def applyUpdate (fc : FunctionCall) (m : Modification) : Modification :=
  match fc.new_text with
  | some t => { m with text := some t }
  | none =>
    match fc.new_image_url with
    | some u => { m with image_url := some u }
    | none => m

/-- `handle_gemini_function_call` (src/banchat/chatbot_app.py lines 84-99):
scan the modification list for the first entry whose `"name"` equals
`layer_name`, mutate it and `break`; the returned flag is `found_layer`
(which only selects the confirmation / warning chat message). -/
def handle_gemini_function_call (fc : FunctionCall) :
    List Modification → List Modification × Bool
  | [] => ([], false)
  | m :: ms =>
    if fc.layer_name = some m.name then (applyUpdate fc m :: ms, true)
    else
      let r := handle_gemini_function_call fc ms
      (m :: r.1, r.2)

/-- At most one value kind set on a modification: `"text"` and `"image_url"`
not both non-null. -/
def Modification.atMostOneKind (m : Modification) : Bool :=
  !(m.text.isSome && m.image_url.isSome)

/-- The body of the job-creation POST issued by `generate_bannerbear_image`
(src/banner/app.py line 55):
`\x7b"template": template_id, "modifications": modifications\x7d`, with each
modification already serialized to its list of string-valued fields. -/
structure Payload where
  template : String
  modifications : List (List (String × String))
deriving DecidableEq

/-- Observable behaviour of one run of `generate_bannerbear_image`: the
outbound requests issued, the returned value (`none` models Python `None`),
and the `st.error` texts displayed. -/
structure SubmitTrace where
  requests : List Payload
  response : Option String
  messages : List String
deriving DecidableEq

/-- The `st.error` text when the submission POST raises
(src/banner/app.py line 61). -/
def submitFailMsg (e : String) : String :=
  "Failed to generate Bannerbear image: " ++ e

/-- `generate_bannerbear_image` (src/banner/app.py lines 52-62): build the
payload, issue exactly one POST (`post` is the transport oracle: the parsed
response body on a 2xx answer, or the exception text), return the body on
success and `None` after an error message on a transport error. -/
def generate_bannerbear_image (post : Payload → Except String String)
    (template_id : String) (modifications : List (List (String × String))) :
    SubmitTrace :=
  match post ⟨template_id, modifications⟩ with
  | .ok body => ⟨[⟨template_id, modifications⟩], some body, []⟩
  | .error e => ⟨[⟨template_id, modifications⟩], none, [submitFailMsg e]⟩

lemma cleanMod_mem (m : Modification) (k v : String) :
    (k, v) ∈ cleanMod m ↔ (k, some v) ∈ m.items := by
  unfold cleanMod
  rw [List.mem_filterMap]
  constructor
  · rintro ⟨⟨a, b⟩, hmem, hf⟩
    cases b with
    | none => exact absurd hf (by simp)
    | some w =>
      simp only [Option.some.injEq, Prod.mk.injEq] at hf
      obtain ⟨rfl, rfl⟩ := hf
      exact hmem
  · intro hmem
    exact ⟨(k, some v), hmem, rfl⟩

lemma handle_no_match (fc : FunctionCall) :
    ∀ mods : List Modification,
      (∀ m ∈ mods, fc.layer_name ≠ some m.name) →
      handle_gemini_function_call fc mods = (mods, false) := by
  intro mods
  induction mods with
  | nil => intro _; rfl
  | cons m ms ih =>
    intro h
    have hm : fc.layer_name ≠ some m.name := h m (List.mem_cons_self m ms)
    simp only [handle_gemini_function_call, if_neg hm,
      ih (fun x hx => h x (List.mem_cons_of_mem m hx))]

lemma handle_first_match (fc : FunctionCall) :
    ∀ (mods : List Modification) (t : Nat) (ht : t < mods.length),
      fc.layer_name = some (mods.get ⟨t, ht⟩).name →
      (∀ j, (hj : j < t) →
        fc.layer_name ≠ some ((mods.get ⟨j, Nat.lt_trans hj ht⟩).name)) →
      handle_gemini_function_call fc mods =
        (mods.take t ++ applyUpdate fc (mods.get ⟨t, ht⟩) ::
          mods.drop (t + 1), true) := by
  intro mods
  induction mods with
  | nil => intro t ht; simp at ht
  | cons m ms ih =>
    intro t ht hmatch hpre
    cases t with
    | zero =>
      simp only [List.get] at hmatch
      simp [handle_gemini_function_call, if_pos hmatch]
    | succ t =>
      have hm : fc.layer_name ≠ some m.name := by
        have := hpre 0 (Nat.succ_pos t)
        simpa [List.get] using this
      have ht' : t < ms.length := Nat.lt_of_succ_lt_succ ht
      have hmatch' : fc.layer_name = some (ms.get ⟨t, ht'⟩).name := by
        simpa [List.get] using hmatch
      have hpre' : ∀ j, (hj : j < t) →
          fc.layer_name ≠ some ((ms.get ⟨j, Nat.lt_trans hj ht'⟩).name) := by
        intro j hj
        have := hpre (j + 1) (Nat.succ_lt_succ hj)
        simpa [List.get] using this
      simp only [handle_gemini_function_call, if_neg hm,
        ih t ht' hmatch' hpre']
      simp [List.take, List.drop, List.get]

lemma isFailedStatus_not_continue (o : FetchOutcome)
    (h : o.isFailedStatus = true) : o.isContinue = false := by
  cases o with
  | transportError e => rfl
  | ok d =>
    cases d with
    | mk st iu =>
      simp only [FetchOutcome.isFailedStatus, decide_eq_true_eq] at h
      subst h
      rfl

lemma isTerminalStatus_not_continue (o : FetchOutcome)
    (h : o.isTerminalStatus = true) : o.isContinue = false := by
  cases o with
  | transportError e => rfl
  | ok d =>
    cases d with
    | mk st iu =>
      cases st with
      | none => simp [FetchOutcome.isTerminalStatus] at h
      | some s =>
        simp only [FetchOutcome.isTerminalStatus, decide_eq_true_eq] at h
        rcases h with h | h <;> (subst h; rfl)

lemma haltStep_failed (o : FetchOutcome) (i : Nat)
    (h : o.isFailedStatus = true) :
    haltStep o i = ⟨i + 1, .ret none, [failedMsg]⟩ := by
  cases o with
  | transportError e => simp [FetchOutcome.isFailedStatus] at h
  | ok d =>
    cases d with
    | mk st iu =>
      simp only [FetchOutcome.isFailedStatus, decide_eq_true_eq] at h
      subst h
      rfl

lemma haltStep_calls (o : FetchOutcome) (i : Nat) :
    (haltStep o i).calls = i + 1 := by
  cases o with
  | transportError e => rfl
  | ok d =>
    cases hs : d.status with
    | none => simp [haltStep, hs]
    | some s =>
      by_cases hc : s = "completed"
      · cases hu : d.image_url_png with
        | none => simp [haltStep, hs, hu, if_pos hc]
        | some url => simp [haltStep, hs, hu, if_pos hc]
      · simp [haltStep, hs, if_neg hc]

lemma poll_timeout_trace (fetch : Nat → FetchOutcome) (n : Nat)
    (h : ∀ j, j < n → (fetch j).isContinue = true) :
    pollLoop fetch n 0 = ⟨n, .ret none, [timeoutMsg]⟩ := by
  have h2 := pollLoop_timeout fetch n 0 (fun j hj => by simpa using h j hj)
  simpa using h2

lemma poll_failed_trace (fetch : Nat → FetchOutcome) (n t : Nat)
    (ht : t < n) (hpre : ∀ j, j < t → (fetch j).isContinue = true)
    (hfail : (fetch t).isFailedStatus = true) :
    pollLoop fetch n 0 = ⟨t + 1, .ret none, [failedMsg]⟩ := by
  have hstop : (fetch t).isContinue = false :=
    isFailedStatus_not_continue _ hfail
  have h := pollLoop_halts_at fetch n 0 t ht
    (fun j hj => by simpa using hpre j hj) (by simpa using hstop)
  simp only [Nat.zero_add] at h
  rw [h]
  exact haltStep_failed _ t hfail

lemma poll_transport_trace (fetch : Nat → FetchOutcome) (n t : Nat)
    (e : String) (ht : t < n)
    (hpre : ∀ j, j < t → (fetch j).isContinue = true)
    (he : fetch t = .transportError e) :
    pollLoop fetch n 0 = ⟨t + 1, .ret none, [pollFailMsg e]⟩ := by
  have hstop : (fetch t).isContinue = false := by rw [he]; rfl
  have h := pollLoop_halts_at fetch n 0 t ht
    (fun j hj => by simpa using hpre j hj) (by simpa using hstop)
  simp only [Nat.zero_add] at h
  rw [h, he]
  rfl

lemma string_append_data (s e : String) : (s ++ e).data = s.data ++ e.data := by
  cases s with
  | mk l =>
    cases e with
    | mk l2 => rfl

lemma string_append_head (s e : String) (c : Char)
    (hs : s.data.head? = some c) : (s ++ e).data.head? = some c := by
  rw [string_append_data]
  cases hl : s.data with
  | nil => rw [hl] at hs; exact absurd hs (by simp)
  | cons a rest =>
    rw [hl] at hs
    simp only [List.head?_cons, Option.some.injEq] at hs
    subst hs
    simp

lemma ne_of_data_head (s t : String) (c1 c2 : Char)
    (h1 : s.data.head? = some c1) (h2 : t.data.head? = some c2)
    (hne : c1 ≠ c2) : s ≠ t := by
  intro h
  rw [h] at h1
  rw [h1] at h2
  exact hne (Option.some.inj h2)

lemma pollFailMsg_ne_timeoutMsg (e : String) : pollFailMsg e ≠ timeoutMsg :=
  ne_of_data_head _ _ 'P' 'I'
    (string_append_head _ e 'P' (by decide)) (by decide) (by decide)

lemma pollFailMsg_ne_failedMsg (e : String) : pollFailMsg e ≠ failedMsg :=
  ne_of_data_head _ _ 'P' 'I'
    (string_append_head _ e 'P' (by decide)) (by decide) (by decide)

lemma submitFailMsg_ne_timeoutMsg (e : String) : submitFailMsg e ≠ timeoutMsg :=
  ne_of_data_head _ _ 'F' 'I'
    (string_append_head _ e 'F' (by decide)) (by decide) (by decide)

lemma submitFailMsg_ne_failedMsg (e : String) : submitFailMsg e ≠ failedMsg :=
  ne_of_data_head _ _ 'F' 'I'
    (string_append_head _ e 'F' (by decide)) (by decide) (by decide)

lemma pollFailMsg_ne_submitFailMsg (e e2 : String) :
    pollFailMsg e ≠ submitFailMsg e2 :=
  ne_of_data_head _ _ 'P' 'F'
    (string_append_head _ e 'P' (by decide))
    (string_append_head _ e2 'F' (by decide)) (by decide)

lemma applyUpdate_atMostOneKind (fc : FunctionCall) (m : Modification)
    (hm : m.atMostOneKind = true)
    (h1 : fc.new_text.isSome = true → m.image_url = none)
    (h2 : fc.new_text = none → fc.new_image_url.isSome = true →
      m.text = none) :
    (applyUpdate fc m).atMostOneKind = true := by
  cases ht : fc.new_text with
  | some t =>
    have him : m.image_url = none := h1 (by rw [ht]; rfl)
    simp [applyUpdate, ht, Modification.atMostOneKind, him]
  | none =>
    cases hu : fc.new_image_url with
    | some u =>
      have htx : m.text = none := h2 ht (by rw [hu]; rfl)
      simp [applyUpdate, ht, hu, Modification.atMostOneKind, htx]
    | none => simpa [applyUpdate, ht, hu] using hm

lemma handle_preserves_atMostOne (fc : FunctionCall) :
    ∀ mods : List Modification,
      (∀ m ∈ mods, m.atMostOneKind = true) →
      (∀ m ∈ mods, fc.layer_name = some m.name →
        (fc.new_text.isSome = true → m.image_url = none) ∧
        (fc.new_text = none → fc.new_image_url.isSome = true →
          m.text = none)) →
      ∀ m ∈ (handle_gemini_function_call fc mods).1,
        m.atMostOneKind = true := by
  intro mods
  induction mods with
  | nil => intro _ _ m hm; simp [handle_gemini_function_call] at hm
  | cons m0 ms ih =>
    intro hinv hsafe m hm
    by_cases hname : fc.layer_name = some m0.name
    · simp only [handle_gemini_function_call, if_pos hname] at hm
      rcases List.mem_cons.mp hm with rfl | hm2
      · exact applyUpdate_atMostOneKind fc m0 (hinv m0 (by simp))
          ((hsafe m0 (by simp) hname).1) ((hsafe m0 (by simp) hname).2)
      · exact hinv m (List.mem_cons_of_mem _ hm2)
    · simp only [handle_gemini_function_call, if_neg hname] at hm
      rcases List.mem_cons.mp hm with rfl | hm2
      · exact hinv m (by simp)
      · exact ih (fun x hx => hinv x (List.mem_cons_of_mem _ hx))
          (fun x hx hx2 => hsafe x (List.mem_cons_of_mem _ hx) hx2) m hm2

/-- Simulated status sequence: always `pending`. -/
def pendFetch : Nat → FetchOutcome := fun _ => .ok ⟨some "pending", none⟩

/-- Simulated status sequence: always `failed`. -/
def failFetch : Nat → FetchOutcome := fun _ => .ok ⟨some "failed", none⟩

/-- Simulated status sequence `[pending, pending, completed, ...]` whose
third response carries the artifact URL `"url3"`. -/
def mixedFetch : Nat → FetchOutcome := fun n =>
  if n < 2 then .ok ⟨some "pending", none⟩
  else .ok ⟨some "completed", some "url3"⟩

/-- Simulated status sequence `[pending, failed, failed, ...]`. -/
def pendThenFailFetch : Nat → FetchOutcome := fun n =>
  if n = 0 then .ok ⟨some "pending", none⟩ else .ok ⟨some "failed", none⟩

/-- Simulated status sequence: `pending`, then a transport error on the
second attempt. -/
def pendThenErrFetch : Nat → FetchOutcome := fun n =>
  if n = 0 then .ok ⟨some "pending", none⟩ else .transportError "boom"

/-- A submission transport oracle that always fails. -/
def wPost : Payload → Except String String := fun _ => .error "down"

/-- A one-entry modification list whose entry has its text value set. -/
def cexMods : List Modification := [⟨"title", some "hi", none, []⟩]

/-- A function call carrying an image-url update for the layer `"title"`. -/
def cexCall : FunctionCall := ⟨some "title", none, some "http"⟩

/-- A function call carrying a text update for the layer `"b"`. -/
def wCall : FunctionCall := ⟨some "b", some "z", none⟩

/-- A two-entry modification list whose second entry is named `"b"`. -/
def wMods : List Modification :=
  [⟨"a", none, none, []⟩, ⟨"b", some "y", none, []⟩]

/-- C1: the polling loop returns a completed artifact locator if and only if
a `completed` status is observed within the attempt bound — that is, some
attempt `t` within the bound reports `completed` after a prefix of attempts
on which the loop continued — and the returned locator is exactly the
`image_url_png` carried by that first `completed` response.  In particular,
for the simulated status sequence `[pending, pending, completed]` under a
bound of 5, exactly 3 status-fetch calls occur and the result is the
artifact URL carried by the 3rd response. -/
theorem C1_poll_success_iff (fetch : Nat → FetchOutcome) (n : Nat)
    (u : String) :
    ((pollLoop fetch n 0).result = .ret (some u) ↔
      ∃ t, t < n ∧ (∀ j, j < t → (fetch j).isContinue = true) ∧
        (fetch t).completedUrl = some u) ∧
    pollLoop mixedFetch 5 0 = ⟨3, .ret (some "url3"), []⟩ := by
  constructor
  · have h := pollLoop_success_iff fetch u n 0
    simp only [Nat.zero_add] at h
    exact h
  · decide

/-- Witness for C1 at the simulated sequence `[pending, pending, completed]`
with bound 5: the loop succeeds with the URL of the 3rd response. -/
theorem C1_poll_success_iff_witness :
    (pollLoop mixedFetch 5 0).result = .ret (some "url3") :=
  (C1_poll_success_iff mixedFetch 5 "url3").1.mpr
    ⟨2, by decide, by decide, by decide⟩

/-- C2: when no attempt reports `completed` or `failed` (every status fetch
yields a non-terminal status), the loop performs exactly `n` status-fetch
calls and then fails with the code's timeout outcome: it returns `None`
after displaying the timeout warning. -/
theorem C2_poll_exhausts_attempts (fetch : Nat → FetchOutcome) (n : Nat)
    (h : ∀ j, j < n → (fetch j).isContinue = true) :
    pollLoop fetch n 0 = ⟨n, .ret none, [timeoutMsg]⟩ :=
  poll_timeout_trace fetch n h

/-- Witness for C2 at `[pending, pending, pending]` with bound 3: exactly 3
calls, timeout outcome. -/
theorem C2_poll_exhausts_attempts_witness :
    (∀ j, j < 3 → (pendFetch j).isContinue = true) ∧
    pollLoop pendFetch 3 0 = ⟨3, .ret none, [timeoutMsg]⟩ :=
  ⟨by decide, C2_poll_exhausts_attempts pendFetch 3 (by decide)⟩

/-- C3: when attempt `t` (0-based) reports `failed` after a prefix of
non-terminal attempts, the loop stops immediately with the code's
provider-failure outcome after exactly `t + 1` status-fetch calls — it does
not exhaust the remaining attempts. -/
theorem C3_provider_failed_stops (fetch : Nat → FetchOutcome) (n t : Nat)
    (ht : t < n) (hpre : ∀ j, j < t → (fetch j).isContinue = true)
    (hfail : (fetch t).isFailedStatus = true) :
    pollLoop fetch n 0 = ⟨t + 1, .ret none, [failedMsg]⟩ :=
  poll_failed_trace fetch n t ht hpre hfail

/-- Witness for C3 at `[pending, failed]` with bound 5: the loop stops after
exactly 2 calls. -/
theorem C3_provider_failed_stops_witness :
    (1 < 5 ∧ (∀ j, j < 1 → (pendThenFailFetch j).isContinue = true) ∧
      (pendThenFailFetch 1).isFailedStatus = true) ∧
    pollLoop pendThenFailFetch 5 0 = ⟨2, .ret none, [failedMsg]⟩ :=
  ⟨⟨by decide, by decide, by decide⟩,
    C3_provider_failed_stops pendThenFailFetch 5 1 (by decide) (by decide)
      (by decide)⟩

/-- C4: when the status-fetch call itself errors on attempt `t + 1` (a
transport failure, i.e. a raised request exception or non-2xx response),
the loop aborts immediately with the code's transport-failure outcome after
exactly `t + 1` calls — the remaining attempts are never used and the
transport error is not retried. -/
theorem C4_transport_error_aborts (fetch : Nat → FetchOutcome) (n t : Nat)
    (e : String) (ht : t < n)
    (hpre : ∀ j, j < t → (fetch j).isContinue = true)
    (he : fetch t = .transportError e) :
    pollLoop fetch n 0 = ⟨t + 1, .ret none, [pollFailMsg e]⟩ :=
  poll_transport_trace fetch n t e ht hpre he

/-- Witness for C4 at a transport error on the 2nd attempt with bound 5:
the loop aborts after exactly 2 calls. -/
theorem C4_transport_error_aborts_witness :
    (1 < 5 ∧ (∀ j, j < 1 → (pendThenErrFetch j).isContinue = true) ∧
      pendThenErrFetch 1 = .transportError "boom") ∧
    pollLoop pendThenErrFetch 5 0 = ⟨2, .ret none, [pollFailMsg "boom"]⟩ :=
  ⟨⟨by decide, by decide, by decide⟩,
    C4_transport_error_aborts pendThenErrFetch 5 1 "boom" (by decide)
      (by decide) (by decide)⟩

/-- C5 counterexample: the claim that the caller can distinguish the failure
kinds from the returned value alone is false.  An exhausted-attempts run
(every response `pending`) and a provider-failure run (first response
`failed`) both make `poll_for_image_completion` return the same value,
Python `None`. -/
theorem C5_counterexample :
    (poll_for_image_completion pendFetch).result = PollOutcome.ret none ∧
    (poll_for_image_completion failFetch).result = PollOutcome.ret none ∧
    (poll_for_image_completion pendFetch).result =
      (poll_for_image_completion failFetch).result := by
  decide

/-- C5 amended: the three failure kinds are not distinguishable from the
returned value — submission failure, polling timeout, provider-reported
failure and polling transport error all yield the value `None` — but each
kind displays its own message, and those messages are pairwise distinct. -/
theorem C5_failure_kinds (fetch1 fetch2 fetch3 : Nat → FetchOutcome)
    (n1 n2 n3 t2 t3 : Nat) (e e2 : String)
    (post : Payload → Except String String) (tid : String)
    (mods : List (List (String × String)))
    (h1 : ∀ j, j < n1 → (fetch1 j).isContinue = true)
    (h2pre : ∀ j, j < t2 → (fetch2 j).isContinue = true) (h2t : t2 < n2)
    (h2f : (fetch2 t2).isFailedStatus = true)
    (h3pre : ∀ j, j < t3 → (fetch3 j).isContinue = true) (h3t : t3 < n3)
    (h3e : fetch3 t3 = .transportError e)
    (hpost : post ⟨tid, mods⟩ = .error e2) :
    (pollLoop fetch1 n1 0).result = .ret none ∧
    (pollLoop fetch2 n2 0).result = .ret none ∧
    (pollLoop fetch3 n3 0).result = .ret none ∧
    (generate_bannerbear_image post tid mods).response = none ∧
    (pollLoop fetch1 n1 0).messages = [timeoutMsg] ∧
    (pollLoop fetch2 n2 0).messages = [failedMsg] ∧
    (pollLoop fetch3 n3 0).messages = [pollFailMsg e] ∧
    (generate_bannerbear_image post tid mods).messages = [submitFailMsg e2] ∧
    timeoutMsg ≠ failedMsg ∧
    pollFailMsg e ≠ timeoutMsg ∧ pollFailMsg e ≠ failedMsg ∧
    submitFailMsg e2 ≠ timeoutMsg ∧ submitFailMsg e2 ≠ failedMsg ∧
    pollFailMsg e ≠ submitFailMsg e2 := by
  have ht1 := poll_timeout_trace fetch1 n1 h1
  have ht2 := poll_failed_trace fetch2 n2 t2 h2t h2pre h2f
  have ht3 := poll_transport_trace fetch3 n3 t3 e h3t h3pre h3e
  have hsub : generate_bannerbear_image post tid mods =
      ⟨[⟨tid, mods⟩], none, [submitFailMsg e2]⟩ := by
    simp [generate_bannerbear_image, hpost]
  refine ⟨by rw [ht1], by rw [ht2], by rw [ht3], by rw [hsub],
    by rw [ht1], by rw [ht2], by rw [ht3], by rw [hsub],
    by decide, pollFailMsg_ne_timeoutMsg e, pollFailMsg_ne_failedMsg e,
    submitFailMsg_ne_timeoutMsg e2, submitFailMsg_ne_failedMsg e2,
    pollFailMsg_ne_submitFailMsg e e2⟩

/-- Witness for the amended C5 at concrete runs of each failure kind. -/
theorem C5_failure_kinds_witness :
    ((∀ j, j < 3 → (pendFetch j).isContinue = true) ∧
      (∀ j, j < 1 → (pendThenFailFetch j).isContinue = true) ∧ 1 < 5 ∧
      (pendThenFailFetch 1).isFailedStatus = true ∧
      (∀ j, j < 1 → (pendThenErrFetch j).isContinue = true) ∧ 1 < 5 ∧
      pendThenErrFetch 1 = .transportError "boom" ∧
      wPost ⟨"tpl", []⟩ = .error "down") ∧
    ((pollLoop pendFetch 3 0).result = .ret none ∧
      (pollLoop pendThenFailFetch 5 0).result = .ret none ∧
      (pollLoop pendThenErrFetch 5 0).result = .ret none ∧
      (generate_bannerbear_image wPost "tpl" []).response = none ∧
      (pollLoop pendFetch 3 0).messages = [timeoutMsg] ∧
      (pollLoop pendThenFailFetch 5 0).messages = [failedMsg] ∧
      (pollLoop pendThenErrFetch 5 0).messages = [pollFailMsg "boom"] ∧
      (generate_bannerbear_image wPost "tpl" []).messages =
        [submitFailMsg "down"] ∧
      timeoutMsg ≠ failedMsg ∧
      pollFailMsg "boom" ≠ timeoutMsg ∧ pollFailMsg "boom" ≠ failedMsg ∧
      submitFailMsg "down" ≠ timeoutMsg ∧ submitFailMsg "down" ≠ failedMsg ∧
      pollFailMsg "boom" ≠ submitFailMsg "down") :=
  ⟨⟨by decide, by decide, by decide, by decide, by decide, by decide,
      by decide, rfl⟩,
    C5_failure_kinds pendFetch pendThenFailFetch pendThenErrFetch 3 5 5 1 1
      "boom" "down" wPost "tpl" [] (by decide) (by decide) (by decide)
      (by decide) (by decide) (by decide) (by decide) rfl⟩

/-- C6: for every (non-empty) modification list, submission issues exactly
one outbound job-creation request — its request list is the singleton
holding the payload with the template identifier and the cleaned
modification list — and the cleaning step keeps, for each modification,
exactly the fields whose values are non-null: a key/value pair appears in
the cleaned modification if and only if the original dict held that key
with that non-null value. -/
theorem C6_single_request_drops_nulls (post : Payload → Except String String)
    (tid : String) (mods : List Modification) (_hne : mods ≠ []) :
    (generate_bannerbear_image post tid (finalModifications mods)).requests =
      [⟨tid, finalModifications mods⟩] ∧
    ∀ m ∈ mods, ∀ k v : String,
      ((k, v) ∈ cleanMod m ↔ (k, some v) ∈ m.items) := by
  refine ⟨?_, fun m _ k v => cleanMod_mem m k v⟩
  unfold generate_bannerbear_image
  cases hp : post ⟨tid, finalModifications mods⟩ <;> simp [hp]

/-- Witness for C6 at a concrete failing transport, template id and
one-entry modification list. -/
theorem C6_single_request_drops_nulls_witness :
    cexMods ≠ [] ∧
    ((generate_bannerbear_image wPost "tpl"
        (finalModifications cexMods)).requests =
      [⟨"tpl", finalModifications cexMods⟩] ∧
    ∀ m ∈ cexMods, ∀ k v : String,
      ((k, v) ∈ cleanMod m ↔ (k, some v) ∈ m.items)) :=
  ⟨by decide, C6_single_request_drops_nulls wPost "tpl" cexMods (by decide)⟩

/-- C7: once a terminal status (`completed` or `failed`) is observed at
attempt `t`, the loop stops: exactly `t + 1` status-fetch calls are issued,
the number of pending self-loops `t` is at most the bound minus one, and the
whole run is unchanged under any change of the status oracle beyond index
`t` — i.e. no status-fetch request is issued after the terminal
observation. -/
theorem C7_no_fetch_after_terminal (fetch : Nat → FetchOutcome) (n t : Nat)
    (ht : t < n) (hpre : ∀ j, j < t → (fetch j).isContinue = true)
    (hterm : (fetch t).isTerminalStatus = true) :
    (pollLoop fetch n 0).calls = t + 1 ∧ t ≤ n - 1 ∧
    ∀ fetch' : Nat → FetchOutcome, (∀ j, j ≤ t → fetch' j = fetch j) →
      pollLoop fetch' n 0 = pollLoop fetch n 0 := by
  have hstop : (fetch t).isContinue = false :=
    isTerminalStatus_not_continue _ hterm
  have h := pollLoop_halts_at fetch n 0 t ht
    (fun j hj => by simpa using hpre j hj) (by simpa using hstop)
  simp only [Nat.zero_add] at h
  refine ⟨by rw [h]; exact haltStep_calls _ _, by omega, ?_⟩
  intro fetch' hagree
  have hpre' : ∀ j, j < t → (fetch' j).isContinue = true := fun j hj => by
    rw [hagree j (Nat.le_of_lt hj)]
    exact hpre j hj
  have hstop' : (fetch' t).isContinue = false := by
    rw [hagree t (Nat.le_refl t)]
    exact hstop
  have h' := pollLoop_halts_at fetch' n 0 t ht
    (fun j hj => by simpa using hpre' j hj) (by simpa using hstop')
  simp only [Nat.zero_add] at h'
  rw [h, h', hagree t (Nat.le_refl t)]

/-- Witness for C7 at `[pending, failed]` with bound 5: exactly 2 calls. -/
theorem C7_no_fetch_after_terminal_witness :
    (1 < 5 ∧ (∀ j, j < 1 → (pendThenFailFetch j).isContinue = true) ∧
      (pendThenFailFetch 1).isTerminalStatus = true) ∧
    (pollLoop pendThenFailFetch 5 0).calls = 2 :=
  ⟨⟨by decide, by decide, by decide⟩,
    (C7_no_fetch_after_terminal pendThenFailFetch 5 1 (by decide) (by decide)
      (by decide)).1⟩

/-- C8 counterexample: the claimed invariant — at most one value kind set
per field, preserved by every field-update operation — fails on the code.
Starting from a list satisfying the invariant (one modification with only
its text value set), a single `handle_gemini_function_call` carrying an
image-url update for that same layer leaves both `text` and `image_url`
set, and the cleaned payload then submitted carries both value kinds for
that field. -/
theorem C8_counterexample :
    cexMods.all Modification.atMostOneKind = true ∧
    (handle_gemini_function_call cexCall cexMods).1.all
      Modification.atMostOneKind = false ∧
    finalModifications (handle_gemini_function_call cexCall cexMods).1 =
      [[("name", "title"), ("text", "hi"), ("image_url", "http")]] := by
  decide

/-- C8 amended: a single update sets at most one value kind per call
(`new_text` takes precedence over `new_image_url`), and the at-most-one-kind
invariant is preserved by the update provided the targeted modification does
not already hold the other value kind; an update of the other kind to an
already-set field violates it (see the counterexample). -/
theorem C8_update_preserves_one_kind (fc : FunctionCall)
    (mods : List Modification)
    (hinv : ∀ m ∈ mods, m.atMostOneKind = true)
    (hsafe : ∀ m ∈ mods, fc.layer_name = some m.name →
      (fc.new_text.isSome = true → m.image_url = none) ∧
      (fc.new_text = none → fc.new_image_url.isSome = true →
        m.text = none)) :
    (∀ m ∈ (handle_gemini_function_call fc mods).1,
      m.atMostOneKind = true) ∧
    ∀ m : Modification, (applyUpdate fc m).text = m.text ∨
      (applyUpdate fc m).image_url = m.image_url := by
  refine ⟨handle_preserves_atMostOne fc mods hinv hsafe, ?_⟩
  intro m
  cases ht : fc.new_text with
  | some t => right; simp [applyUpdate, ht]
  | none =>
    cases hu : fc.new_image_url with
    | some u => left; simp [applyUpdate, ht, hu]
    | none => left; simp [applyUpdate, ht, hu]

/-- Witness for the amended C8: a text update to a layer holding only text
keeps the invariant. -/
theorem C8_update_preserves_one_kind_witness :
    ((∀ m ∈ cexMods, m.atMostOneKind = true) ∧
      (∀ m ∈ cexMods, wCall.layer_name = some m.name →
        (wCall.new_text.isSome = true → m.image_url = none) ∧
        (wCall.new_text = none → wCall.new_image_url.isSome = true →
          m.text = none))) ∧
    ∀ m ∈ (handle_gemini_function_call wCall cexMods).1,
      m.atMostOneKind = true :=
  ⟨⟨by decide, by decide⟩,
    (C8_update_preserves_one_kind wCall cexMods (by decide) (by decide)).1⟩

/-- C9: the field-update operation changes at most the first modification
whose name matches the function call's layer name — the resulting list is
the original with only that entry replaced by its update, everything before
and after unchanged — and when no modification matches, the whole list is
returned unchanged (with the found flag false). -/
theorem C9_update_frame (fc : FunctionCall) (mods : List Modification) :
    ((∀ m ∈ mods, fc.layer_name ≠ some m.name) →
      handle_gemini_function_call fc mods = (mods, false)) ∧
    ∀ (t : Nat) (ht : t < mods.length),
      fc.layer_name = some ((mods.get ⟨t, ht⟩).name) →
      (∀ j, (hj : j < t) →
        fc.layer_name ≠ some ((mods.get ⟨j, Nat.lt_trans hj ht⟩).name)) →
      handle_gemini_function_call fc mods =
        (mods.take t ++ applyUpdate fc (mods.get ⟨t, ht⟩) ::
          mods.drop (t + 1), true) :=
  ⟨handle_no_match fc mods,
    fun t ht h1 h2 => handle_first_match fc mods t ht h1 h2⟩

/-- Witness for C9: updating layer `"b"` in a two-entry list replaces only
the second entry. -/
theorem C9_update_frame_witness :
    handle_gemini_function_call wCall wMods =
      (wMods.take 1 ++ applyUpdate wCall (wMods.get ⟨1, by decide⟩) ::
        wMods.drop 2, true) := by
  refine (C9_update_frame wCall wMods).2 1 (by decide) (by decide) ?_
  intro j hj
  have hj0 : j = 0 := by omega
  subst hj0
  show wCall.layer_name ≠ some ((wMods.get ⟨0, by decide⟩).name)
  decide

/-- C10: the polling loop indexes the status body without a guard: a
well-formed JSON response lacking the `status` key makes the run leave by an
unhandled `KeyError` on `"status"`, and a response reporting `completed`
without an `image_url_png` key makes it leave by an unhandled `KeyError` on
`"image_url_png"`; neither run is a normal return of a value. -/
theorem C10_unguarded_key_access :
    (poll_for_image_completion (fun _ => .ok ⟨none, none⟩)).result =
      .keyError "status" ∧
    (poll_for_image_completion
        (fun _ => .ok ⟨some "completed", none⟩)).result =
      .keyError "image_url_png" ∧
    ∀ v : Option String,
      (poll_for_image_completion (fun _ => .ok ⟨none, none⟩)).result ≠
        PollOutcome.ret v := by
  refine ⟨by decide, by decide, ?_⟩
  intro v h
  have h2 : (poll_for_image_completion (fun _ => .ok ⟨none, none⟩)).result =
      PollOutcome.keyError "status" := by decide
  rw [h2] at h
  exact PollOutcome.noConfusion h
